import Mathlib

/-!
# Verification of the `whis` transcription core

Shallow embedding of the retry policy, the provider request/retry loops, the
progress-event traces and the local model cache of the `whis-core` crate
(`crates/whis-core/src/provider/base/retry.rs`,
`crates/whis-core/src/provider/base/openai_compatible.rs`,
`crates/whis-core/src/provider/deepgram.rs`,
`crates/whis-core/src/provider/elevenlabs.rs`,
`crates/whis-core/src/provider/local_whisper.rs`,
`crates/whis-core/src/provider/local_parakeet.rs`,
`crates/whis-core/src/model_manager.rs`), together with theorems settling the
specification's claims about them.

Machine integers: Rust `u64` arithmetic is embedded as `Nat` with an explicit
`% 2^64` at the operations whose source-level counterparts can overflow
(`2u64.pow(attempt)` and the multiplication in `delay_for_attempt`).  In a
release build those operations wrap; in a debug build they panic.  Both builds
agree whenever no overflow occurs, and the no-overflow predicates below
characterise exactly when that is.
-/

namespace Whis

/-- Width of the wrapping modulus for `u64`. -/
def U64LIM : Nat := 2 ^ 64

/-- Structure `RetryConfig` from `retry.rs`.

The Rust field `rate_limit_multiplier` is an `f64`; in the one configuration
the program ever constructs (the `Default` instance) it is exactly `2.0`, and
the value it multiplies (`delay_ms`) is always `≤ max_delay_ms = 16000 < 2^53`,
so `(delay_ms as f64 * 2.0) as u64 = delay_ms * 2` exactly.  The field is
therefore embedded as the exact natural number it denotes. -/
structure RetryConfig where
  maxRetries : Nat
  baseDelayMs : Nat
  maxDelayMs : Nat
  rateLimitMultiplier : Nat
deriving Repr, DecidableEq

/-- Default configuration `RetryConfig::default()`: `max_retries = 3`, `base_delay_ms = 1000`,
`max_delay_ms = 16000`, `rate_limit_multiplier = 2.0`. -/
def RetryConfig.default : RetryConfig :=
  { maxRetries := 3, baseDelayMs := 1000, maxDelayMs := 16000, rateLimitMultiplier := 2 }

/-- Function `RetryConfig::delay_for_attempt` from `retry.rs`:
`base_delay = self.base_delay_ms * 2u64.pow(attempt)` (u64, wrapping embedded
as `% 2^64`; note `(b * (2^a % 2^64)) % 2^64 = b * 2^a % 2^64`, so one modulus
covers both the `pow` and the multiplication), then
`delay_ms = base_delay.min(self.max_delay_ms)`, then the rate-limit multiplier
applied after the cap.  Returns the delay in milliseconds. -/
def RetryConfig.delayForAttempt (cfg : RetryConfig) (attempt : Nat)
    (isRateLimited : Bool) : Nat :=
  let baseDelay := cfg.baseDelayMs * 2 ^ attempt % U64LIM
  let delayMs := min baseDelay cfg.maxDelayMs
  if isRateLimited then delayMs * cfg.rateLimitMultiplier else delayMs

/-- The exponentiation `2u64.pow(attempt)` does not overflow `u64`. -/
def powFits (attempt : Nat) : Prop := 2 ^ attempt < U64LIM

/-- The multiplication `base_delay_ms * 2u64.pow(attempt)` does not overflow
`u64` (this subsumes `powFits` when `base_delay_ms > 0`). -/
def RetryConfig.mulFits (cfg : RetryConfig) (attempt : Nat) : Prop :=
  cfg.baseDelayMs * 2 ^ attempt < U64LIM

instance (a : Nat) : Decidable (powFits a) := by unfold powFits; infer_instance

instance (cfg : RetryConfig) (a : Nat) : Decidable (cfg.mulFits a) := by
  unfold RetryConfig.mulFits; infer_instance

/-- Predicate `is_retryable_status` from `retry.rs`:
`matches!(status.as_u16(), 408 | 429 | 500 | 502 | 503 | 504)`. -/
def isRetryableStatus (status : Nat) : Bool :=
  status == 408 || status == 429 || status == 500 ||
  status == 502 || status == 503 || status == 504

/-- Predicate `is_rate_limited` from `retry.rs`: `status == StatusCode::TOO_MANY_REQUESTS`. -/
def isRateLimited (status : Nat) : Bool := status == 429

/-- Success test `reqwest::StatusCode::is_success()`: `200 ≤ status ≤ 299`. -/
def isSuccessStatus (status : Nat) : Bool := 200 ≤ status && status ≤ 299

/-- The classification of a `reqwest::Error` relevant to retrying: whether
`is_timeout()`, `is_connect()` and `is_request()` hold for it. -/
structure TransportErr where
  timeout : Bool
  connect : Bool
  isReq : Bool
deriving Repr, DecidableEq

/-- Predicate `is_retryable_error` from `retry.rs`:
`err.is_timeout() || err.is_connect() || err.is_request()`. -/
def isRetryableError (e : TransportErr) : Bool := e.timeout || e.connect || e.isReq

/-- The two `TranscriptionStage` progress events the providers report
through `request.report(..)` (`provider` module). -/
inductive Stage where
  | uploading
  | transcribing
deriving Repr, DecidableEq

/-- Structure `TranscriptionRequest` (the fields the provider code reads).  Audio bytes
are abstracted as a list of naturals; `mimeOk` records whether
`Part::mime_str(&request.mime_type)` succeeds (it parses the mime string and
its failure aborts the multipart form building with `?`).  The progress sink
is embedded by collecting the reported `Stage`s in order into a trace. -/
structure TranscriptionRequest where
  audioData : List Nat
  filename : String
  mimeType : String
  mimeOk : Bool
  language : Option String
deriving Repr, DecidableEq

/-- The body of an OpenAI-compatible (or ElevenLabs) response as seen by
`serde_json::from_str::<Response>`: either it fails to parse, or it yields a
`text` field. -/
inductive OAIBody where
  | malformed
  | withText (text : String)
deriving Repr, DecidableEq

/-- The body of a Deepgram response as seen by `serde_json::from_str`: either
it fails to parse or it yields `results.channels`, each channel a list of
alternatives, each alternative a transcript string. -/
inductive DGBody where
  | malformed
  | wellFormed (channels : List (List String))
deriving Repr, DecidableEq

/-- Outcome of interpreting a successfully received response body. -/
inductive ParseOut where
  | malformed
  | noTranscript
  | text (t : String)
deriving Repr, DecidableEq

/-- OpenAI-compatible/ElevenLabs body interpretation: `resp.text`. -/
def oaiParse : OAIBody → ParseOut
  | .malformed => .malformed
  | .withText t => .text t

/-- Deepgram body interpretation (`deepgram.rs`):
`resp.results.channels.first().and_then(|c| c.alternatives.first())
 .map(|a| a.transcript.clone()).ok_or_else(no transcript found)`. -/
def dgParse : DGBody → ParseOut
  | .malformed => .malformed
  | .wellFormed channels =>
      match channels.head?.bind List.head? with
      | some t => .text t
      | none => .noTranscript

/-- One scripted outcome of `client.post(..).send()`: a response with a
status code and a body, or a transport error. -/
inductive SendOutcome (β : Type) where
  | response (status : Nat) (body : β)
  | transportFailed (e : TransportErr)
deriving Repr, DecidableEq

/-- How a provider call resolves in the embedding.  `pending` marks a run
whose script ran out before the loop resolved (the real loop would issue a
further request); it is not a return value of the source code. -/
inductive RunResult (β : Type) where
  | ok (text : String)
  | apiError (status : Nat) (body : β)
  | sendFailed (e : TransportErr)
  | parseFailed (body : β)
  | noTranscript (body : β)
  | mimeError
  | pending
deriving Repr, DecidableEq

/-- Output of a provider run: the resolution, the reported progress events in
order, and the list of retry delays slept (in ms, in order). -/
structure RunOut (β : Type) where
  result : RunResult β
  stages : List Stage
  delays : List Nat
deriving Repr, DecidableEq

/-- The shared retry loop skeleton of `openai_compatible_transcribe_sync`,
`DeepgramProvider::transcribe_sync` and `ElevenLabsProvider::transcribe_sync`
(and their `_async` twins, which are line-for-line identical in control flow).
Each iteration: (for multipart providers, `mimeFallible = true`) build the
form, failing the call before any further event if the mime type is invalid;
report `Transcribing`; send, consuming the next scripted outcome; on a
success status parse the body; on a retryable failure with
`attempt < max_retries` sleep `delay_for_attempt(attempt, ..)` and loop with
`attempt + 1`; otherwise resolve with the error. -/
def remoteLoop (cfg : RetryConfig) (parse : β → ParseOut) (mimeFallible : Bool)
    (mimeOk : Bool) : List (SendOutcome β) → Nat → RunOut β
  | script, attempt =>
    if mimeFallible && !mimeOk then ⟨.mimeError, [], []⟩
    else
      match script with
      | [] => ⟨.pending, [.transcribing], []⟩
      | outcome :: rest =>
        match outcome with
        | .response status body =>
          if isSuccessStatus status then
            match parse body with
            | .text t => ⟨.ok t, [.transcribing], []⟩
            | .malformed => ⟨.parseFailed body, [.transcribing], []⟩
            | .noTranscript => ⟨.noTranscript body, [.transcribing], []⟩
          else if isRetryableStatus status && attempt < cfg.maxRetries then
            let d := cfg.delayForAttempt attempt (isRateLimited status)
            let tail := remoteLoop cfg parse mimeFallible mimeOk rest (attempt + 1)
            ⟨tail.result, .transcribing :: tail.stages, d :: tail.delays⟩
          else ⟨.apiError status body, [.transcribing], []⟩
        | .transportFailed e =>
          if isRetryableError e && attempt < cfg.maxRetries then
            let d := cfg.delayForAttempt attempt false
            let tail := remoteLoop cfg parse mimeFallible mimeOk rest (attempt + 1)
            ⟨tail.result, .transcribing :: tail.stages, d :: tail.delays⟩
          else ⟨.sendFailed e, [.transcribing], []⟩

/-- Function `openai_compatible_transcribe_sync` (`openai_compatible.rs`): report
`Uploading` once, then run the retry loop with the default config; the
multipart form build parses the mime type each iteration. -/
def openaiCompatibleTranscribe (req : TranscriptionRequest)
    (script : List (SendOutcome OAIBody)) : RunOut OAIBody :=
  let inner := remoteLoop RetryConfig.default oaiParse true req.mimeOk script 0
  ⟨inner.result, .uploading :: inner.stages, inner.delays⟩

/-- Function `ElevenLabsProvider::transcribe_sync` (`elevenlabs.rs`): same skeleton as
the OpenAI-compatible call (multipart, mime parsed each iteration), response
parsed for a `text` field. -/
def elevenlabsTranscribe (req : TranscriptionRequest)
    (script : List (SendOutcome OAIBody)) : RunOut OAIBody :=
  let inner := remoteLoop RetryConfig.default oaiParse true req.mimeOk script 0
  ⟨inner.result, .uploading :: inner.stages, inner.delays⟩

/-- Function `DeepgramProvider::transcribe_sync` (`deepgram.rs`): report `Uploading`
once, build the URL (infallible: no mime parsing), then run the retry loop
with the Deepgram response interpretation. -/
def deepgramTranscribe (req : TranscriptionRequest)
    (script : List (SendOutcome DGBody)) : RunOut DGBody :=
  let inner := remoteLoop RetryConfig.default dgParse false req.mimeOk script 0
  ⟨inner.result, .uploading :: inner.stages, inner.delays⟩

/-! ## HTTP request shapes (wire format) -/

/-- The HTTP request `DeepgramProvider::transcribe_sync` posts: query
parameters (in append order), headers, and the raw body bytes. -/
structure DGHttpRequest where
  query : List (String × String)
  headers : List (String × String)
  body : List Nat
deriving Repr, DecidableEq

/-- Request building in `deepgram.rs`: `url.query_pairs_mut()` appends
`("model", "nova-2")` then `("smart_format", "true")`, then — only when the
request carries a language — `("language", lang)`; the post carries headers
`Authorization: Token <key>` and `Content-Type: <mime>` and the audio bytes
as the body. -/
def buildDeepgramRequest (apiKey : String) (req : TranscriptionRequest) : DGHttpRequest :=
  let query := [("model", "nova-2"), ("smart_format", "true")]
  let query := match req.language with
    | some lang => query ++ [("language", lang)]
    | none => query
  { query := query
    headers := [("Authorization", "Token " ++ apiKey), ("Content-Type", req.mimeType)]
    body := req.audioData }

/-- One multipart form field: a text field or a file part (bytes with a file
name and a mime type). -/
inductive FormField where
  | text (name value : String)
  | file (name : String) (bytes : List Nat) (filename mime : String)
deriving Repr, DecidableEq

/-- The HTTP request `ElevenLabsProvider::transcribe_sync` posts: headers and
multipart form fields (in append order). -/
structure ELHttpRequest where
  headers : List (String × String)
  form : List FormField
deriving Repr, DecidableEq

/-- Request building in `elevenlabs.rs`: the form gets `model_id = scribe_v1`,
then the `file` part (whose mime parsing can fail, aborting the call), then —
only when the request carries a language — `language_code`; the post carries
the header `xi-api-key: <key>`.  `none` when `mime_str` fails. -/
def buildElevenLabsRequest (apiKey : String) (req : TranscriptionRequest) :
    Option ELHttpRequest :=
  if !req.mimeOk then none
  else
    let form := [FormField.text "model_id" "scribe_v1",
                 FormField.file "file" req.audioData req.filename req.mimeType]
    let form := match req.language with
      | some lang => form ++ [FormField.text "language_code" lang]
      | none => form
    some { headers := [("xi-api-key", apiKey)], form := form }

/-! ## Model cache (`model_manager.rs`) and local providers -/

/-- Result of `model_manager::get_model`: a `ModelGuard` (abstracted by the
path whose context it was created from), or one of the two validation
errors.  Load and state-creation failures of `whisper_rs` itself are
abstracted as success; no claim under verification concerns them. -/
inductive GetModelResult where
  | ok (path : String)
  | notConfigured
  | notFound (path : String)
deriving Repr, DecidableEq

/-- Output of `get_model`: the result, the cache slot afterwards (a
`CachedModel` abstracted by its `path` field), and how many disk loads
(`WhisperContext::new_with_params` calls) were performed. -/
structure GetModelOut where
  result : GetModelResult
  cache : Option String
  loads : Nat
deriving Repr, DecidableEq

/-- Function `get_model` from `model_manager.rs`.  `disk` tells whether
`std::path::Path::new(path).exists()`.  Fast path: cached path matches —
reuse, no load.  (The double-check after taking the write lock re-tests the
same condition and is subsumed in this sequential embedding.)  Then: empty
path → configuration error; path absent on disk → not-found error; otherwise
load from disk, replace the cache slot, return a guard. -/
def getModel (disk : String → Bool) (path : String) (cache : Option String) :
    GetModelOut :=
  if cache = some path then ⟨.ok path, cache, 0⟩
  else if path = "" then ⟨.notConfigured, cache, 0⟩
  else if disk path = false then ⟨.notFound path, cache, 0⟩
  else ⟨.ok path, some path, 1⟩

/-- Function `unload_model`: clears the cache slot. -/
def unloadModel (_cache : Option String) : Option String := none

/-- Function `maybe_unload`: `if !should_keep_loaded() { unload_model(); }` — the
process-wide `KEEP_LOADED` flag is passed explicitly. -/
def maybeUnload (keepLoaded : Bool) (cache : Option String) : Option String :=
  if !keepLoaded then unloadModel cache else cache

/-- How a local whisper transcription resolves. -/
inductive LocalResult where
  | ok
  | decodeFailed
  | modelFailed (e : GetModelResult)
  | inferFailed
deriving Repr, DecidableEq

/-- Output of a local whisper call: resolution, cache slot afterwards, disk
loads performed. -/
structure LocalOut where
  result : LocalResult
  cache : Option String
  loads : Nat
deriving Repr, DecidableEq

/-- Function `transcribe_samples` from `local_whisper.rs`: get (or load) the model
through the cache; run inference (`state.full`, outcome scripted by
`inferOk` — on failure the function returns early and `maybe_unload` is NOT
reached); on success drop the guard and conditionally unload the cache. -/
def whisperTranscribeSamples (disk : String → Bool) (keepLoaded : Bool)
    (path : String) (inferOk : Bool) (cache : Option String) : LocalOut :=
  let g := getModel disk path cache
  match g.result with
  | .ok _ =>
      if inferOk then ⟨.ok, maybeUnload keepLoaded g.cache, g.loads⟩
      else ⟨.inferFailed, g.cache, g.loads⟩
  | e => ⟨.modelFailed e, g.cache, g.loads⟩

/-- Function `transcribe_local` from `local_whisper.rs`: report `Transcribing` (the
only progress event a local call ever reports — no `Uploading`), decode the
MP3 payload (outcome scripted by `decodeOk`), then `transcribe_samples`. -/
def whisperTranscribeLocal (disk : String → Bool) (keepLoaded : Bool)
    (path : String) (decodeOk inferOk : Bool) (cache : Option String) :
    LocalOut × List Stage :=
  let stages := [Stage.transcribing]
  if decodeOk then (whisperTranscribeSamples disk keepLoaded path inferOk cache, stages)
  else (⟨.decodeFailed, cache, 0⟩, stages)

/-- How a Parakeet transcription resolves. -/
inductive ParakeetResult where
  | ok
  | decodeFailed
  | loadFailed
  | inferFailed
deriving Repr, DecidableEq

/-- Output of a Parakeet call: resolution, the global whisper model-cache
slot afterwards, and how many `ParakeetTDT::from_pretrained` disk loads the
call performed. -/
structure ParakeetOut where
  result : ParakeetResult
  cache : Option String
  fromPretrainedCalls : Nat
deriving Repr, DecidableEq

/-- Function `transcribe_samples` from `local_parakeet.rs`: load the model anew with
`ParakeetTDT::from_pretrained` (outcome scripted by `loadOk`), then run
inference (`inferOk`).  The function never references `model_manager`, so
the global cache slot is threaded through untouched. -/
def parakeetTranscribeSamples (loadOk inferOk : Bool) (cache : Option String) :
    ParakeetOut :=
  if !loadOk then ⟨.loadFailed, cache, 1⟩
  else if inferOk then ⟨.ok, cache, 1⟩
  else ⟨.inferFailed, cache, 1⟩

/-- Function `transcribe_local` from `local_parakeet.rs`: report
`Transcribing` (the only progress event), decode the MP3 payload (outcome
scripted by `decodeOk`), then `transcribe_samples`.  No branch touches the
global model cache. -/
def parakeetTranscribeLocal (loadOk inferOk decodeOk : Bool)
    (cache : Option String) : ParakeetOut × List Stage :=
  let stages := [Stage.transcribing]
  if decodeOk then (parakeetTranscribeSamples loadOk inferOk cache, stages)
  else (⟨.decodeFailed, cache, 0⟩, stages)

/-! ## Helper lemmas about the retry loop -/

/-- Shape of the progress trace of one retry loop: nothing when the form
build fails on the mime type, otherwise one `Transcribing` per iteration,
i.e. one per retry delay plus one for the resolving attempt (the resolving
attempt includes a run whose script ran out, since `Transcribing` is
reported before the send). -/
theorem remoteLoop_stages_eq {β : Type} (cfg : RetryConfig) (parse : β → ParseOut)
    (mf mo : Bool) (script : List (SendOutcome β)) (a : Nat) :
    (remoteLoop cfg parse mf mo script a).stages =
      List.replicate
        (if mf && !mo then 0 else (remoteLoop cfg parse mf mo script a).delays.length + 1)
        Stage.transcribing := by
  induction script generalizing a with
  | nil =>
    rw [remoteLoop.eq_def]
    by_cases h : (mf && !mo) = true <;> simp [h]
  | cons o rest ih =>
    rw [remoteLoop.eq_def]
    by_cases h : (mf && !mo) = true
    · simp [h]
    · cases o with
      | response st b =>
        by_cases hs : isSuccessStatus st = true
        · cases hp : parse b <;> simp [h, hs, hp]
        · by_cases hr : (isRetryableStatus st && decide (a < cfg.maxRetries)) = true
          · have := ih (a + 1)
            simp only [h, if_false] at this ⊢
            simp [hs, hr, this, List.replicate_succ]
          · simp [h, hs, hr]
      | transportFailed e =>
        by_cases hr : (isRetryableError e && decide (a < cfg.maxRetries)) = true
        · have := ih (a + 1)
          simp only [h, if_false] at this ⊢
          simp [hr, this, List.replicate_succ]
        · simp [h, hr]

/-- Every delay slept by the retry loop is computed by `delay_for_attempt`
at an attempt number below `max_retries` (the loop only retries — and only
increments `attempt` — under the guard `attempt < config.max_retries`). -/
theorem remoteLoop_delays_mem {β : Type} (cfg : RetryConfig) (parse : β → ParseOut)
    (mf mo : Bool) (script : List (SendOutcome β)) (a : Nat) :
    ∀ d ∈ (remoteLoop cfg parse mf mo script a).delays,
      ∃ i rl, a ≤ i ∧ i < cfg.maxRetries ∧ d = cfg.delayForAttempt i rl := by
  induction script generalizing a with
  | nil =>
    rw [remoteLoop.eq_def]
    by_cases h : (mf && !mo) = true <;> simp [h]
  | cons o rest ih =>
    rw [remoteLoop.eq_def]
    by_cases h : (mf && !mo) = true
    · simp [h]
    · cases o with
      | response st b =>
        by_cases hs : isSuccessStatus st = true
        · cases hp : parse b <;> simp [h, hs, hp]
        · by_cases hr : (isRetryableStatus st && decide (a < cfg.maxRetries)) = true
          · have hlt : a < cfg.maxRetries :=
              of_decide_eq_true ((Bool.and_eq_true _ _).mp hr).2
            simp only [h, if_false]
            simp only [hs, hr, Bool.false_eq_true, if_false, if_true]
            intro d hd
            rcases List.mem_cons.mp hd with hd | hd
            · exact ⟨a, isRateLimited st, le_refl a, hlt, hd⟩
            · rcases ih (a + 1) d hd with ⟨i, rl, hai, hilt, hdi⟩
              exact ⟨i, rl, le_trans (Nat.le_succ a) hai, hilt, hdi⟩
          · simp [h, hs, hr]
      | transportFailed e =>
        by_cases hr : (isRetryableError e && decide (a < cfg.maxRetries)) = true
        · have hlt : a < cfg.maxRetries :=
            of_decide_eq_true ((Bool.and_eq_true _ _).mp hr).2
          simp only [h, if_false]
          simp only [hr, if_true]
          intro d hd
          rcases List.mem_cons.mp hd with hd | hd
          · exact ⟨a, false, le_refl a, hlt, hd⟩
          · rcases ih (a + 1) d hd with ⟨i, rl, hai, hilt, hdi⟩
            exact ⟨i, rl, le_trans (Nat.le_succ a) hai, hilt, hdi⟩
        · simp [h, hr]

/-- The retry loop resolves successfully only by receiving a scripted
response with a success status whose body parses to a transcript. -/
theorem remoteLoop_ok_mem {β : Type} (cfg : RetryConfig) (parse : β → ParseOut)
    (mf mo : Bool) (script : List (SendOutcome β)) (a : Nat) (t : String) :
    (remoteLoop cfg parse mf mo script a).result = .ok t →
    ∃ st b, SendOutcome.response st b ∈ script ∧ isSuccessStatus st = true ∧
      parse b = .text t := by
  induction script generalizing a with
  | nil =>
    rw [remoteLoop.eq_def]
    by_cases h : (mf && !mo) = true <;> simp [h]
  | cons o rest ih =>
    rw [remoteLoop.eq_def]
    by_cases h : (mf && !mo) = true
    · simp [h]
    · cases o with
      | response st b =>
        by_cases hs : isSuccessStatus st = true
        · cases hp : parse b with
          | text u =>
            simp only [h, if_false, hs, hp, if_true]
            intro hok
            have hut : u = t := by
              have := congrArg id hok
              simpa using this
            exact ⟨st, b, List.mem_cons_self _ _, hs, hut ▸ hp⟩
          | malformed => simp [h, hs, hp]
          | noTranscript => simp [h, hs, hp]
        · by_cases hr : (isRetryableStatus st && decide (a < cfg.maxRetries)) = true
          · simp only [h, if_false]
            simp only [hs, hr, Bool.false_eq_true, if_false, if_true]
            intro hok
            rcases ih (a + 1) hok with ⟨st2, b2, hmem, hs2, hp2⟩
            exact ⟨st2, b2, List.mem_cons_of_mem _ hmem, hs2, hp2⟩
          · simp [h, hs, hr]
      | transportFailed e =>
        by_cases hr : (isRetryableError e && decide (a < cfg.maxRetries)) = true
        · simp only [h, if_false]
          simp only [hr, if_true]
          intro hok
          rcases ih (a + 1) hok with ⟨st2, b2, hmem, hs2, hp2⟩
          exact ⟨st2, b2, List.mem_cons_of_mem _ hmem, hs2, hp2⟩
        · simp [h, hr]

/-! ## Claim theorems -/

/-- C1 (counterexample): the claimed identity
`delay(attempt) = min(base_delay × 2^attempt, max_delay)` does not hold for
every attempt number: at attempt 61 the 64-bit product `1000 * 2^61` is an
exact multiple of `2^64`, so the wrapping computation yields a 0ms delay
while the claimed formula yields the 16000ms cap (a debug build panics on
the same overflow instead). -/
theorem C1_counterexample :
    RetryConfig.default.delayForAttempt 61 false ≠
      min (RetryConfig.default.baseDelayMs * 2 ^ 61) RetryConfig.default.maxDelayMs := by
  decide

/-- C1 (amended): with the default retry configuration
(`max_retries = 3`, `base_delay_ms = 1000`, `max_delay_ms = 16000`,
`rate_limit_multiplier = 2.0`), for every attempt number at most 54 — the
range on which the 64-bit multiplication `base_delay × 2^attempt` does not
overflow — the computed retry delay equals
`min(base_delay × 2^attempt, max_delay)`, multiplied by
`rate_limit_multiplier` after the cap when the failure is rate-limited; in
particular, for attempts 0–3 the non-rate-limited delays are
`[1000, 2000, 4000, 8000]` ms and the rate-limited delays are
`[2000, 4000, 8000, 16000]` ms. -/
theorem C1_delay_formula (a : Nat) (ha : a ≤ 54) :
    RetryConfig.default.delayForAttempt a false =
      min (RetryConfig.default.baseDelayMs * 2 ^ a) RetryConfig.default.maxDelayMs ∧
    RetryConfig.default.delayForAttempt a true =
      min (RetryConfig.default.baseDelayMs * 2 ^ a) RetryConfig.default.maxDelayMs *
        RetryConfig.default.rateLimitMultiplier ∧
    [0, 1, 2, 3].map (fun i => RetryConfig.default.delayForAttempt i false) =
      [1000, 2000, 4000, 8000] ∧
    [0, 1, 2, 3].map (fun i => RetryConfig.default.delayForAttempt i true) =
      [2000, 4000, 8000, 16000] := by
  have hfit : (1000 : Nat) * 2 ^ a < U64LIM := by
    have h1 : (2 : Nat) ^ a ≤ 2 ^ 54 := Nat.pow_le_pow_right (by norm_num) ha
    have h2 : (1000 : Nat) * 2 ^ a ≤ 1000 * 2 ^ 54 := Nat.mul_le_mul_left _ h1
    exact lt_of_le_of_lt h2 (by norm_num [U64LIM])
  have hmod : (1000 : Nat) * 2 ^ a % U64LIM = 1000 * 2 ^ a := Nat.mod_eq_of_lt hfit
  refine ⟨?_, ?_, by decide, by decide⟩
  · simp [RetryConfig.delayForAttempt, RetryConfig.default, hmod]
  · simp [RetryConfig.delayForAttempt, RetryConfig.default, hmod]

/-- C1 (witness): the amended delay formula instantiated at attempt 3. -/
theorem C1_witness :
    (3 ≤ 54) ∧
    (RetryConfig.default.delayForAttempt 3 false =
      min (RetryConfig.default.baseDelayMs * 2 ^ 3) RetryConfig.default.maxDelayMs ∧
    RetryConfig.default.delayForAttempt 3 true =
      min (RetryConfig.default.baseDelayMs * 2 ^ 3) RetryConfig.default.maxDelayMs *
        RetryConfig.default.rateLimitMultiplier ∧
    [0, 1, 2, 3].map (fun i => RetryConfig.default.delayForAttempt i false) =
      [1000, 2000, 4000, 8000] ∧
    [0, 1, 2, 3].map (fun i => RetryConfig.default.delayForAttempt i true) =
      [2000, 4000, 8000, 16000]) :=
  ⟨by norm_num, C1_delay_formula 3 (by norm_num)⟩

/-- C10: `delay_for_attempt` computes `2^attempt` with `u64::pow`, which
overflows — and in a checked build panics — for every attempt ≥ 64; and
under the precondition `attempt < max_retries` that the retry loops
establish before computing any delay, neither the exponentiation nor the
multiplication overflows with the default configuration.  The third
conjunct verifies that precondition on the loop itself: every delay an
OpenAI-compatible run ever sleeps is computed by `delay_for_attempt` at an
attempt number below `max_retries`, on which the multiplication fits in
`u64`. -/
theorem C10_no_overflow :
    (∀ a, 64 ≤ a → ¬ powFits a) ∧
    (∀ a, a < RetryConfig.default.maxRetries →
        powFits a ∧ RetryConfig.default.mulFits a) ∧
    (∀ (req : TranscriptionRequest) (script : List (SendOutcome OAIBody)),
        ∀ d ∈ (openaiCompatibleTranscribe req script).delays,
          ∃ i rl, i < RetryConfig.default.maxRetries ∧
            RetryConfig.default.mulFits i ∧
            d = RetryConfig.default.delayForAttempt i rl) := by
  have hmul : ∀ i, i < RetryConfig.default.maxRetries → RetryConfig.default.mulFits i := by
    intro i hi
    have h3 : i < 3 := hi
    unfold RetryConfig.mulFits U64LIM
    have h1 : (2 : Nat) ^ i ≤ 2 ^ 2 := Nat.pow_le_pow_right (by norm_num) (by omega)
    have h2 : RetryConfig.default.baseDelayMs * 2 ^ i ≤ 1000 * 2 ^ 2 :=
      Nat.mul_le_mul_left _ h1
    exact lt_of_le_of_lt h2 (by norm_num)
  refine ⟨?_, ?_, ?_⟩
  · intro a ha
    unfold powFits U64LIM
    simp only [not_lt]
    exact Nat.pow_le_pow_right (by norm_num) ha
  · intro a ha
    refine ⟨?_, hmul a ha⟩
    have h3 : a < 3 := ha
    unfold powFits U64LIM
    exact lt_of_le_of_lt (Nat.pow_le_pow_right (by norm_num) (by omega : a ≤ 2))
      (by norm_num)
  · intro req script d hd
    have hd2 : d ∈ (remoteLoop RetryConfig.default oaiParse true req.mimeOk script 0).delays := hd
    rcases remoteLoop_delays_mem RetryConfig.default oaiParse true req.mimeOk script 0 d hd2
      with ⟨i, rl, _, hilt, hdi⟩
    exact ⟨i, rl, hilt, hmul i hilt, hdi⟩

/-- C10 (witness): the overflow bound at attempt 64, the in-range bound at
attempt 0, and the loop-precondition conjunct applied to a concrete run
that retries once (a timeout, then a 200) and therefore sleeps a 1000ms
delay. -/
theorem C10_witness :
    (¬ powFits 64) ∧
    (powFits 0 ∧ RetryConfig.default.mulFits 0) ∧
    (∃ i rl, i < RetryConfig.default.maxRetries ∧
      RetryConfig.default.mulFits i ∧
      (1000 : Nat) = RetryConfig.default.delayForAttempt i rl) :=
  ⟨C10_no_overflow.1 64 (le_refl 64),
   C10_no_overflow.2.1 0 (by decide),
   C10_no_overflow.2.2 ⟨[], "a.mp3", "audio/mpeg", true, none⟩
     [.transportFailed ⟨true, false, false⟩, .response 200 (.withText "hi")]
     1000 (by decide)⟩

/-- C2 (counterexample): the claimed event pattern — exactly one `Uploading`
followed by exactly one `Transcribing` on every transcribe call — fails on
both sides: a local whisper call reports only `[Transcribing]` (zero
`Uploading` events), and a remote OpenAI-compatible call that retries once
(timeout, then 200) reports `Transcribing` twice. -/
theorem C2_counterexample :
    (whisperTranscribeLocal (fun _ => true) false "model.bin" true true none).2 =
      [Stage.transcribing] ∧
    (whisperTranscribeLocal (fun _ => true) false "model.bin" true true none).2.count
      Stage.uploading = 0 ∧
    (openaiCompatibleTranscribe ⟨[], "a.mp3", "audio/mpeg", true, none⟩
      [.transportFailed ⟨true, false, false⟩,
       .response 200 (.withText "hi")]).stages =
      [Stage.uploading, Stage.transcribing, Stage.transcribing] := by
  refine ⟨rfl, rfl, ?_⟩
  decide

/-- C2 (amended): each remote backend call (multipart OpenAI-compatible,
multipart ElevenLabs, raw-body Deepgram) reports exactly one `Uploading`
event, before any `Transcribing`, and then one `Transcribing` event per
request attempt — i.e. one per retry sleep plus one for the resolving
attempt, so exactly one when the first attempt resolves without retrying;
for the multipart providers a mime-type failure aborts the call after
`Uploading` with no `Transcribing` at all.  A local whisper call reports
exactly one `Transcribing` event and no `Uploading`. -/
theorem C2_amended :
    (∀ (req : TranscriptionRequest) (script : List (SendOutcome OAIBody)),
       (openaiCompatibleTranscribe req script).stages =
         Stage.uploading :: List.replicate
           (if req.mimeOk then (openaiCompatibleTranscribe req script).delays.length + 1
            else 0) Stage.transcribing) ∧
    (∀ (req : TranscriptionRequest) (script : List (SendOutcome OAIBody)),
       (elevenlabsTranscribe req script).stages =
         Stage.uploading :: List.replicate
           (if req.mimeOk then (elevenlabsTranscribe req script).delays.length + 1
            else 0) Stage.transcribing) ∧
    (∀ (req : TranscriptionRequest) (script : List (SendOutcome DGBody)),
       (deepgramTranscribe req script).stages =
         Stage.uploading :: List.replicate
           ((deepgramTranscribe req script).delays.length + 1) Stage.transcribing) ∧
    (∀ (disk : String → Bool) (keep : Bool) (path : String) (dOk iOk : Bool)
       (c : Option String),
       (whisperTranscribeLocal disk keep path dOk iOk c).2 = [Stage.transcribing]) := by
  refine ⟨?_, ?_, ?_, ?_⟩
  · intro req script
    have h := remoteLoop_stages_eq RetryConfig.default oaiParse true req.mimeOk script 0
    show Stage.uploading ::
        (remoteLoop RetryConfig.default oaiParse true req.mimeOk script 0).stages = _
    rw [h]
    cases hm : req.mimeOk <;> simp [openaiCompatibleTranscribe, hm]
  · intro req script
    have h := remoteLoop_stages_eq RetryConfig.default oaiParse true req.mimeOk script 0
    show Stage.uploading ::
        (remoteLoop RetryConfig.default oaiParse true req.mimeOk script 0).stages = _
    rw [h]
    cases hm : req.mimeOk <;> simp [elevenlabsTranscribe, hm]
  · intro req script
    have h := remoteLoop_stages_eq RetryConfig.default dgParse false req.mimeOk script 0
    show Stage.uploading ::
        (remoteLoop RetryConfig.default dgParse false req.mimeOk script 0).stages = _
    rw [h]
    simp [deepgramTranscribe]
  · intro disk keep path dOk iOk c
    cases dOk <;> simp [whisperTranscribeLocal]

/-- C3: a remote transcribe call treats an HTTP status as retryable exactly
when it is 408, 429, 500, 502, 503 or 504; a transport error is retryable
exactly when it is a timeout, connect, or request-build error; and a
response with any other non-success status is not retried — the loop
resolves immediately with an error carrying the status and the response
body, having slept no delay. -/
theorem C3_retryable_classification :
    (∀ s : Nat, isRetryableStatus s = true ↔
       (s = 408 ∨ s = 429 ∨ s = 500 ∨ s = 502 ∨ s = 503 ∨ s = 504)) ∧
    (∀ e : TransportErr, isRetryableError e = true ↔
       (e.timeout = true ∨ e.connect = true ∨ e.isReq = true)) ∧
    (∀ (β : Type) (parse : β → ParseOut) (mf : Bool) (cfg : RetryConfig)
       (st : Nat) (b : β) (rest : List (SendOutcome β)) (a : Nat),
       isSuccessStatus st = false → isRetryableStatus st = false →
       remoteLoop cfg parse mf true (.response st b :: rest) a =
         ⟨.apiError st b, [.transcribing], []⟩) := by
  refine ⟨?_, ?_, ?_⟩
  · intro s
    simp [isRetryableStatus, or_assoc]
  · intro e
    simp [isRetryableError, or_assoc]
  · intro β parse mf cfg st b rest a hs hr
    rw [remoteLoop.eq_def]
    simp [hs, hr]

/-- C3 (witness): a 404 with a malformed body on the first attempt of a
Deepgram-shaped loop fails immediately with the status and body and no
retry delay. -/
theorem C3_witness :
    remoteLoop RetryConfig.default dgParse false true
        [.response 404 DGBody.malformed] 0 =
      ⟨.apiError 404 DGBody.malformed, [Stage.transcribing], []⟩ :=
  C3_retryable_classification.2.2 DGBody dgParse false RetryConfig.default
    404 DGBody.malformed [] 0 (by decide) (by decide)

/-- C4: starting from an empty cache slot, getting model `p` loads it from
disk once and caches it; getting `p` again performs no disk load and reuses
the cached context (its stored path equals `p`); getting a different `q`
afterwards performs a second disk load and replaces the cached entry with
`q` (evicting `p`). -/
theorem C4_cache_single_load (disk : String → Bool) (p q : String)
    (hp : disk p = true) (hp0 : p ≠ "") (hq : disk q = true) (hq0 : q ≠ "")
    (hqp : q ≠ p) :
    (getModel disk p none).loads = 1 ∧
    (getModel disk p none).cache = some p ∧
    (getModel disk p (getModel disk p none).cache).loads = 0 ∧
    (getModel disk p (getModel disk p none).cache).result = .ok p ∧
    (getModel disk p (getModel disk p none).cache).cache = some p ∧
    (getModel disk q (getModel disk p (getModel disk p none).cache).cache).loads = 1 ∧
    (getModel disk q (getModel disk p (getModel disk p none).cache).cache).cache = some q := by
  have h1 : getModel disk p none = ⟨.ok p, some p, 1⟩ := by
    simp [getModel, hp, hp0]
  have h2 : getModel disk p (some p) = ⟨.ok p, some p, 0⟩ := by
    simp [getModel]
  have h3 : getModel disk q (some p) = ⟨.ok q, some q, 1⟩ := by
    have hpq : p ≠ q := Ne.symm hqp
    simp [getModel, hq, hq0, hpq]
  refine ⟨?_, ?_, ?_, ?_, ?_, ?_, ?_⟩ <;> simp [h1, h2, h3]

/-- C4 (witness): the cache scenario instantiated with paths "a" and "b" on
a disk where every path exists. -/
theorem C4_witness :
    (getModel (fun _ => true) "a" none).loads = 1 ∧
    (getModel (fun _ => true) "a" none).cache = some "a" ∧
    (getModel (fun _ => true) "a" (getModel (fun _ => true) "a" none).cache).loads = 0 ∧
    (getModel (fun _ => true) "a" (getModel (fun _ => true) "a" none).cache).result =
      .ok "a" ∧
    (getModel (fun _ => true) "a" (getModel (fun _ => true) "a" none).cache).cache =
      some "a" ∧
    (getModel (fun _ => true) "b"
      (getModel (fun _ => true) "a"
        (getModel (fun _ => true) "a" none).cache).cache).loads = 1 ∧
    (getModel (fun _ => true) "b"
      (getModel (fun _ => true) "a"
        (getModel (fun _ => true) "a" none).cache).cache).cache = some "b" :=
  C4_cache_single_load (fun _ => true) "a" "b" rfl (by decide) rfl (by decide) (by decide)

/-- C5: with the keep-loaded flag false, a successful local whisper
transcription leaves the cache slot empty, so a following `get_model` with
the same path performs a fresh disk load; with the flag true the slot is
exactly what `get_model` left in it (the loaded model). -/
theorem C5_keep_loaded (disk : String → Bool) (p : String) (c : Option String)
    (hp : disk p = true) (hp0 : p ≠ "") :
    (whisperTranscribeSamples disk false p true c).result = .ok ∧
    (whisperTranscribeSamples disk false p true c).cache = none ∧
    (getModel disk p (whisperTranscribeSamples disk false p true c).cache).loads = 1 ∧
    (whisperTranscribeSamples disk true p true c).cache = (getModel disk p c).cache := by
  by_cases hc : c = some p <;>
    simp [whisperTranscribeSamples, getModel, maybeUnload, unloadModel, hc, hp, hp0]

/-- C5 (witness): the keep-loaded scenario at path "a", empty initial
cache, on a disk where every path exists. -/
theorem C5_witness :
    (whisperTranscribeSamples (fun _ => true) false "a" true none).result = .ok ∧
    (whisperTranscribeSamples (fun _ => true) false "a" true none).cache = none ∧
    (getModel (fun _ => true) "a"
      (whisperTranscribeSamples (fun _ => true) false "a" true none).cache).loads = 1 ∧
    (whisperTranscribeSamples (fun _ => true) true "a" true none).cache =
      (getModel (fun _ => true) "a" none).cache :=
  C5_keep_loaded (fun _ => true) "a" none rfl (by decide)

/-- C6: when the requested path does not match the cached model, `get_model`
fails with the configuration error on an empty path and with the not-found
error on a non-empty path absent from disk; in both cases the cache slot is
unchanged and no disk load happens. -/
theorem C6_invalid_path (disk : String → Bool) (c : Option String) (p : String)
    (hne : c ≠ some p) :
    (p = "" → getModel disk p c = ⟨.notConfigured, c, 0⟩) ∧
    (p ≠ "" → disk p = false → getModel disk p c = ⟨.notFound p, c, 0⟩) := by
  constructor
  · intro h0
    subst h0
    simp [getModel, hne]
  · intro h0 hd
    simp [getModel, hne, h0, hd]

/-- C6 (witness): both failure modes on an empty cache over a disk with no
files: the empty path and the absent path "x". -/
theorem C6_witness :
    getModel (fun _ => false) "" none = ⟨.notConfigured, none, 0⟩ ∧
    getModel (fun _ => false) "x" none = ⟨.notFound "x", none, 0⟩ :=
  ⟨(C6_invalid_path (fun _ => false) none "" (by simp)).1 rfl,
   (C6_invalid_path (fun _ => false) none "x" (by simp)).2 (by decide) rfl⟩

/-- C7: every Deepgram request posts the audio bytes as the raw body with
query parameters `model` and `smart_format` and — exactly when the request
carries a language — `language`, under the header
`Authorization: Token <key>`; every ElevenLabs request (once its mime type
parses) carries the header `xi-api-key: <key>` and form fields `model_id`
and `file`, plus `language_code` exactly when the request carries a
language. -/
theorem C7_wire_format (apiKey : String) (req : TranscriptionRequest)
    (hm : req.mimeOk = true) :
    (buildDeepgramRequest apiKey req).body = req.audioData ∧
    ("model", "nova-2") ∈ (buildDeepgramRequest apiKey req).query ∧
    ("smart_format", "true") ∈ (buildDeepgramRequest apiKey req).query ∧
    (∀ l, ("language", l) ∈ (buildDeepgramRequest apiKey req).query ↔
        req.language = some l) ∧
    ("Authorization", "Token " ++ apiKey) ∈ (buildDeepgramRequest apiKey req).headers ∧
    (∃ r, buildElevenLabsRequest apiKey req = some r ∧
      r.headers = [("xi-api-key", apiKey)] ∧
      FormField.text "model_id" "scribe_v1" ∈ r.form ∧
      FormField.file "file" req.audioData req.filename req.mimeType ∈ r.form ∧
      (∀ l, FormField.text "language_code" l ∈ r.form ↔ req.language = some l)) := by
  cases hl : req.language with
  | none =>
    refine ⟨rfl, ?_, ?_, ?_, ?_, ?_⟩
    · simp [buildDeepgramRequest, hl]
    · simp [buildDeepgramRequest, hl]
    · intro l
      simp [buildDeepgramRequest, hl]
    · simp [buildDeepgramRequest, hl]
    · refine ⟨{ headers := [("xi-api-key", apiKey)],
                form := [FormField.text "model_id" "scribe_v1",
                         FormField.file "file" req.audioData req.filename req.mimeType] },
              ?_, rfl, ?_, ?_, ?_⟩
      · simp [buildElevenLabsRequest, hm, hl]
      · simp
      · simp
      · intro l
        simp [hl]
  | some lng =>
    refine ⟨rfl, ?_, ?_, ?_, ?_, ?_⟩
    · simp [buildDeepgramRequest, hl]
    · simp [buildDeepgramRequest, hl]
    · intro l
      simp [buildDeepgramRequest, hl, eq_comm]
    · simp [buildDeepgramRequest, hl]
    · refine ⟨{ headers := [("xi-api-key", apiKey)],
                form := [FormField.text "model_id" "scribe_v1",
                         FormField.file "file" req.audioData req.filename req.mimeType,
                         FormField.text "language_code" lng] },
              ?_, rfl, ?_, ?_, ?_⟩
      · simp [buildElevenLabsRequest, hm, hl]
      · simp
      · simp
      · intro l
        simp [hl, eq_comm]

/-- C7 (witness): the wire formats at a concrete key and request carrying
language "en". -/
theorem C7_witness :
    (buildDeepgramRequest "K" ⟨[1, 2], "a.mp3", "audio/mpeg", true, some "en"⟩).body =
      ([1, 2] : List Nat) ∧
    ("model", "nova-2") ∈
      (buildDeepgramRequest "K" ⟨[1, 2], "a.mp3", "audio/mpeg", true, some "en"⟩).query ∧
    ("smart_format", "true") ∈
      (buildDeepgramRequest "K" ⟨[1, 2], "a.mp3", "audio/mpeg", true, some "en"⟩).query ∧
    (∀ l, ("language", l) ∈
        (buildDeepgramRequest "K" ⟨[1, 2], "a.mp3", "audio/mpeg", true, some "en"⟩).query ↔
      (TranscriptionRequest.mk [1, 2] "a.mp3" "audio/mpeg" true (some "en")).language =
        some l) ∧
    ("Authorization", "Token " ++ "K") ∈
      (buildDeepgramRequest "K" ⟨[1, 2], "a.mp3", "audio/mpeg", true, some "en"⟩).headers ∧
    (∃ r, buildElevenLabsRequest "K" ⟨[1, 2], "a.mp3", "audio/mpeg", true, some "en"⟩ =
        some r ∧
      r.headers = [("xi-api-key", "K")] ∧
      FormField.text "model_id" "scribe_v1" ∈ r.form ∧
      FormField.file "file" [1, 2] "a.mp3" "audio/mpeg" ∈ r.form ∧
      (∀ l, FormField.text "language_code" l ∈ r.form ↔ (some "en" : Option String) = some l)) :=
  C7_wire_format "K" ⟨[1, 2], "a.mp3", "audio/mpeg", true, some "en"⟩ rfl

/-- C8: every failure mode of a remote transcribe call resolves it with an
error value describing the cause — a terminal (non-retryable or
retry-exhausted) transport error resolves as a send error carrying the
error; a terminal non-success status resolves as an API error carrying the
status and body; a success status with an unparseable body resolves as a
parse error; a success status whose well-formed body has no transcript
(e.g. a Deepgram body with empty channels or empty alternatives) resolves
as a no-transcript error; and no run ever resolves `ok` except by a
success-status response whose body yields a transcript. -/
theorem C8_failures_surface :
    (∀ (β : Type) (parse : β → ParseOut) (mf : Bool) (cfg : RetryConfig)
       (e : TransportErr) (rest : List (SendOutcome β)) (a : Nat),
       (isRetryableError e = false ∨ cfg.maxRetries ≤ a) →
       remoteLoop cfg parse mf true (.transportFailed e :: rest) a =
         ⟨.sendFailed e, [.transcribing], []⟩) ∧
    (∀ (β : Type) (parse : β → ParseOut) (mf : Bool) (cfg : RetryConfig)
       (st : Nat) (b : β) (rest : List (SendOutcome β)) (a : Nat),
       isSuccessStatus st = false →
       (isRetryableStatus st = false ∨ cfg.maxRetries ≤ a) →
       remoteLoop cfg parse mf true (.response st b :: rest) a =
         ⟨.apiError st b, [.transcribing], []⟩) ∧
    (∀ (β : Type) (parse : β → ParseOut) (mf : Bool) (cfg : RetryConfig)
       (st : Nat) (b : β) (rest : List (SendOutcome β)) (a : Nat),
       isSuccessStatus st = true → parse b = .malformed →
       remoteLoop cfg parse mf true (.response st b :: rest) a =
         ⟨.parseFailed b, [.transcribing], []⟩) ∧
    ((dgParse (.wellFormed []) = .noTranscript ∧
      dgParse (.wellFormed [[]]) = .noTranscript) ∧
     ∀ (β : Type) (parse : β → ParseOut) (mf : Bool) (cfg : RetryConfig)
       (st : Nat) (b : β) (rest : List (SendOutcome β)) (a : Nat),
       isSuccessStatus st = true → parse b = .noTranscript →
       remoteLoop cfg parse mf true (.response st b :: rest) a =
         ⟨.noTranscript b, [.transcribing], []⟩) ∧
    (∀ (β : Type) (parse : β → ParseOut) (mf mo : Bool) (cfg : RetryConfig)
       (script : List (SendOutcome β)) (a : Nat) (t : String),
       (remoteLoop cfg parse mf mo script a).result = .ok t →
       ∃ st b, SendOutcome.response st b ∈ script ∧ isSuccessStatus st = true ∧
         parse b = .text t) := by
  refine ⟨?_, ?_, ?_, ⟨⟨rfl, rfl⟩, ?_⟩, ?_⟩
  · intro β parse mf cfg e rest a h
    have hg : (isRetryableError e && decide (a < cfg.maxRetries)) = false := by
      rcases h with h | h
      · simp [h]
      · simp [Nat.not_lt.mpr h]
    rw [remoteLoop.eq_def]
    simp [hg]
  · intro β parse mf cfg st b rest a hs h
    have hg : (isRetryableStatus st && decide (a < cfg.maxRetries)) = false := by
      rcases h with h | h
      · simp [h]
      · simp [Nat.not_lt.mpr h]
    rw [remoteLoop.eq_def]
    simp [hs, hg]
  · intro β parse mf cfg st b rest a hs hp
    rw [remoteLoop.eq_def]
    simp [hs, hp]
  · intro β parse mf cfg st b rest a hs hp
    rw [remoteLoop.eq_def]
    simp [hs, hp]
  · intro β parse mf mo cfg script a t hok
    exact remoteLoop_ok_mem cfg parse mf mo script a t hok

/-- C8 (witness): the malformed-body and empty-channels failure modes on
concrete first-attempt runs. -/
theorem C8_witness :
    (remoteLoop RetryConfig.default oaiParse true true
        [.response 200 OAIBody.malformed] 0 =
      ⟨.parseFailed OAIBody.malformed, [Stage.transcribing], []⟩) ∧
    (remoteLoop RetryConfig.default dgParse false true
        [.response 200 (DGBody.wellFormed [])] 0 =
      ⟨.noTranscript (DGBody.wellFormed []), [Stage.transcribing], []⟩) :=
  ⟨C8_failures_surface.2.2.1 OAIBody oaiParse true RetryConfig.default
      200 OAIBody.malformed [] 0 (by decide) rfl,
   C8_failures_surface.2.2.2.1.2 DGBody dgParse false RetryConfig.default
      200 (DGBody.wellFormed []) [] 0 (by decide) rfl⟩

/-- C9: a Parakeet transcription never reads, populates, or evicts the
global model-cache slot — the slot is unchanged by `transcribe_samples`
(whatever the load and inference outcomes) and by `transcribe_local`
(whatever the decode outcome) — and every `transcribe_samples` call
performs exactly one `from_pretrained` disk load, so two consecutive calls
perform two loads. -/
theorem C9_parakeet_frame (loadOk inferOk loadOk2 inferOk2 decodeOk : Bool)
    (c : Option String) :
    (parakeetTranscribeSamples loadOk inferOk c).cache = c ∧
    (parakeetTranscribeSamples loadOk inferOk c).fromPretrainedCalls = 1 ∧
    (parakeetTranscribeSamples loadOk2 inferOk2
        (parakeetTranscribeSamples loadOk inferOk c).cache).cache = c ∧
    (parakeetTranscribeSamples loadOk inferOk c).fromPretrainedCalls +
      (parakeetTranscribeSamples loadOk2 inferOk2
        (parakeetTranscribeSamples loadOk inferOk c).cache).fromPretrainedCalls = 2 ∧
    (parakeetTranscribeLocal loadOk inferOk decodeOk c).1.cache = c := by
  cases loadOk <;> cases inferOk <;> cases loadOk2 <;> cases inferOk2 <;>
    cases decodeOk <;>
      simp [parakeetTranscribeSamples, parakeetTranscribeLocal]

end Whis
